import Mathlib

/-!
Verification development for `camera_stream.py` (MJPEG camera streaming
server). The Python source is shallowly embedded: numpy frames become a
`shape`/`contiguous`/`pix` record, the cv2 colour conversions and the JPEG
encoder are treated as black boxes (symbolic pixel data, encoder outcome
supplied by the environment), the capture loop becomes a fold over a list
of per-iteration environments, and the lifecycle functions become pure
state transformers on the module's global state.
-/

namespace CameraStream

/-- Symbolic pixel payload of a numpy frame. The cv2 conversions are black
boxes, so converted and contiguous-copied buffers are tracked as symbolic
constructors over the original payload. -/
inductive Pix where
  | raw (id : Nat)
  | converted (code : Nat) (p : Pix)
  | contigCopy (p : Pix)
deriving DecidableEq, Repr

/-- Model of a numpy array as seen by `capture_frames`: `shape` is the numpy
shape tuple, `contiguous` models `frame.flags['C_CONTIGUOUS']`, and `pix` is
the (symbolic) pixel payload. -/
structure NpFrame where
  shape : List Nat
  contiguous : Bool
  pix : Pix
deriving DecidableEq, Repr

/-- The cv2 conversion codes used in `capture_frames` (lines 63, 67, 70, 73):
COLOR_GRAY2BGR, COLOR_YUV2BGR_YUYV, COLOR_BGRA2BGR, COLOR_RGB2BGR. -/
def COLOR_GRAY2BGR : Nat := 0
def COLOR_YUV2BGR_YUYV : Nat := 1
def COLOR_BGRA2BGR : Nat := 2
def COLOR_RGB2BGR : Nat := 3

/-- Black-box model of `cv2.cvtColor` for the four codes the source uses:
each maps an (H, W)- or (H, W, c)-shaped input to a fresh contiguous
(H, W, 3) output whose pixels are a symbolic function of the input. -/
def cvtColor (code : Nat) (f : NpFrame) : NpFrame :=
  { shape := f.shape.take 2 ++ [3]
    contiguous := true
    pix := Pix.converted code f.pix }

/-- The format-dispatch chain of `capture_frames`, lines 61-74: 2-D frames
are GRAY2BGR-converted; 3-D frames with 2, 4 or 3 channels are converted
with YUV2BGR_YUYV, BGRA2BGR or RGB2BGR respectively; every other
shape/channel combination falls through every branch and the frame is left
unchanged. -/
def normalizeFrame (f : NpFrame) : NpFrame :=
  if f.shape.length == 2 then
    cvtColor COLOR_GRAY2BGR f
  else if f.shape.length == 3 then
    if f.shape.getD 2 0 == 2 then
      cvtColor COLOR_YUV2BGR_YUYV f
    else if f.shape.getD 2 0 == 4 then
      cvtColor COLOR_BGRA2BGR f
    else if f.shape.getD 2 0 == 3 then
      cvtColor COLOR_RGB2BGR f
    else
      f
  else
    f

/-- Lines 77-78 of `capture_frames`: if the buffer is not C-contiguous,
replace it by `np.ascontiguousarray(frame)` (a contiguous copy). -/
def ensureContiguous (f : NpFrame) : NpFrame :=
  if f.contiguous then f
  else { f with contiguous := true, pix := Pix.contigCopy f.pix }

/-- The complete normalizer stage of one loop iteration (lines 61-78): the
frame that is handed to `cv2.imencode` on line 81. -/
def toEncoder (f : NpFrame) : NpFrame :=
  ensureContiguous (normalizeFrame f)

/-- The normalizer stage viewed as a fallible stage, `none` meaning the
frame was rejected (an `UnsupportedFormat` failure) before reaching the
encoder. The source has no rejection path — every frame, recognized or not,
reaches `cv2.imencode` — so the result is always `some`. -/
def toEncoderOpt (f : NpFrame) : Option NpFrame :=
  some (toEncoder f)

/-- A frame is in one of the four recognized cases of the dispatch chain:
2-D grayscale, or 3-D with 2, 4 or 3 channels. -/
def recognizedCase (f : NpFrame) : Bool :=
  f.shape.length == 2 ||
    (f.shape.length == 3 &&
      (f.shape.getD 2 0 == 2 || f.shape.getD 2 0 == 4 || f.shape.getD 2 0 == 3))

theorem ensureContiguous_contiguous (f : NpFrame) :
    (ensureContiguous f).contiguous = true := by
  unfold ensureContiguous
  split
  · assumption
  · rfl

theorem ensureContiguous_shape (f : NpFrame) :
    (ensureContiguous f).shape = f.shape := by
  unfold ensureContiguous
  split <;> rfl

/-- C1 counterexample: the concrete 3-D frame of shape (480, 640, 5) is not
one of the recognized cases, yet the normalizer stage does not fail: it
forwards the frame to the encoder literally unchanged (the source's dispatch
chain has no else-branch that rejects, lines 61-74). -/
theorem c1_normalizer_counterexample :
    recognizedCase ⟨[480, 640, 5], true, Pix.raw 0⟩ = false ∧
    toEncoderOpt ⟨[480, 640, 5], true, Pix.raw 0⟩ =
      some ⟨[480, 640, 5], true, Pix.raw 0⟩ ∧
    ¬ toEncoderOpt ⟨[480, 640, 5], true, Pix.raw 0⟩ = none := by
  refine ⟨by decide, by decide, by decide⟩

/-- C1 (amended): a frame whose shape/channel combination is not one of the
four recognized cases is not rejected with `UnsupportedFormat`; it falls
through the dispatch chain unchanged and is forwarded to the encoder (after
the contiguity fix-up, which is the identity on contiguous frames). -/
theorem c1_unrecognized_passthrough (f : NpFrame)
    (h : recognizedCase f = false) :
    toEncoderOpt f = some (ensureContiguous f) := by
  unfold toEncoderOpt toEncoder normalizeFrame
  split
  · exfalso; simp_all [recognizedCase]
  · split
    · split
      · exfalso; simp_all [recognizedCase]
      · split
        · exfalso; simp_all [recognizedCase]
        · split
          · exfalso; simp_all [recognizedCase]
          · rfl
    · rfl

/-- Witness instantiating `c1_unrecognized_passthrough` at the concrete
non-contiguous (480, 640, 1) frame. -/
theorem c1_unrecognized_passthrough_witness :
    toEncoderOpt ⟨[480, 640, 1], false, Pix.raw 7⟩ =
      some ⟨[480, 640, 1], true, Pix.contigCopy (Pix.raw 7)⟩ := by
  have h := c1_unrecognized_passthrough ⟨[480, 640, 1], false, Pix.raw 7⟩ (by decide)
  simpa [ensureContiguous] using h

/-- C2: every frame handed to the encoder is contiguous (the line 77-78
fix-up runs on all paths), and for each of the four recognized cases the
encoder input is a 3-channel frame with the input's height and width. -/
theorem c2_recognized_contiguous_3channel :
    (∀ f : NpFrame, (toEncoder f).contiguous = true) ∧
    (∀ f : NpFrame, recognizedCase f = true →
      (toEncoder f).shape = f.shape.take 2 ++ [3]) := by
  constructor
  · intro f
    exact ensureContiguous_contiguous (normalizeFrame f)
  · intro f h
    rw [toEncoder, ensureContiguous_shape]
    unfold normalizeFrame
    split
    · rfl
    · split
      · split
        · rfl
        · split
          · rfl
          · split
            · rfl
            · exfalso; simp_all [recognizedCase]
      · exfalso; simp_all [recognizedCase]

/-- Witness instantiating `c2_recognized_contiguous_3channel` at a concrete
2-channel (YUYV-style) non-contiguous frame. -/
theorem c2_recognized_contiguous_3channel_witness :
    (toEncoder ⟨[480, 640, 2], false, Pix.raw 1⟩).contiguous = true ∧
    (toEncoder ⟨[480, 640, 2], false, Pix.raw 1⟩).shape = [480, 640, 3] := by
  refine ⟨c2_recognized_contiguous_3channel.1 _, ?_⟩
  have h := c2_recognized_contiguous_3channel.2 ⟨[480, 640, 2], false, Pix.raw 1⟩
    (by decide)
  simpa using h

/-- The outcome of the body of one `capture_frames` iteration, with the
camera capture and the JPEG encoder treated as black boxes supplied by the
environment: either some step inside the `try` block raises (line 89's
handler logs, sleeps 100ms and continues), or a frame is captured but
`cv2.imencode` returns `success = False` (publishing is skipped), or
encoding succeeds with the given JPEG bytes. -/
inductive IterOutcome where
  | throws
  | encodeFailed
  | encoded (b : List Nat)
deriving DecidableEq, Repr

/-- The environment one loop iteration runs in: the values of the globals
`streaming` and `camera is not None` observed by the `while` guard on
line 51, and the outcome of the iteration body. -/
structure IterEnv where
  streaming : Bool
  cameraPresent : Bool
  outcome : IterOutcome
deriving DecidableEq, Repr

/-- Effect of one iteration body on the shared frame cell `current_frame`
(lines 52-92): an exception or a failed encode leaves the cell untouched; a
successful encode publishes the JPEG bytes under `frame_lock`. -/
def iterCell (cell : Option (List Nat)) : IterOutcome → Option (List Nat)
  | IterOutcome.throws => cell
  | IterOutcome.encodeFailed => cell
  | IterOutcome.encoded b => some b

/-- The `while streaming and camera is not None` loop of `capture_frames`
(lines 51-95) run against a list of per-iteration environments. Returns the
final cell contents together with the environments left unconsumed: the
loop exits exactly when the top-of-iteration guard fails, leaving the rest
of the list unprocessed. -/
def loopRun : Option (List Nat) → List IterEnv → Option (List Nat) × List IterEnv
  | cell, [] => (cell, [])
  | cell, e :: rest =>
    if e.streaming && e.cameraPresent then
      loopRun (iterCell cell e.outcome) rest
    else
      (cell, e :: rest)

/-- The iterations whose body actually runs, i.e. which reach the
`camera.capture_array()` call on line 54: the longest prefix of the
environment list on which the line 51 guard holds. -/
def loopTrace : List IterEnv → List IterEnv
  | [] => []
  | e :: rest =>
    if e.streaming && e.cameraPresent then e :: loopTrace rest
    else []

/-- C3: per-frame failures never terminate the capture loop. First
conjunct: the loop stops early only at a top-of-iteration guard check, at
an environment whose guard is false (and when every observed environment
satisfies the reachable-state invariant that `streaming` implies the camera
handle is present, the guard fails only because `streaming` was cleared).
Second conjunct: after any finite run of iterations that all raise (capture
failures), a guarded iteration whose frame encodes successfully publishes
its JPEG bytes to the cell and the loop has consumed every environment. -/
theorem c3_failures_never_terminate_loop :
    (∀ (cell c : Option (List Nat)) (es rest : List IterEnv) (e : IterEnv),
      loopRun cell es = (c, e :: rest) →
        (e.streaming && e.cameraPresent) = false ∧
        ((∀ x ∈ es, x.streaming = true → x.cameraPresent = true) →
          e.streaming = false)) ∧
    (∀ (cell : Option (List Nat)) (es : List IterEnv) (e : IterEnv)
        (b : List Nat),
      (∀ x ∈ es, x.streaming = true ∧ x.cameraPresent = true ∧
        x.outcome = IterOutcome.throws) →
      e.streaming = true → e.cameraPresent = true →
      e.outcome = IterOutcome.encoded b →
      loopRun cell (es ++ [e]) = (some b, [])) := by
  constructor
  · intro cell c es
    induction es generalizing cell with
    | nil => intro rest e h; exact absurd h (by simp [loopRun])
    | cons x xs ih =>
      intro rest e h
      rw [loopRun] at h
      by_cases hg : (x.streaming && x.cameraPresent) = true
      · rw [if_pos hg] at h
        obtain ⟨hg1, hinv⟩ := ih _ _ _ h
        refine ⟨hg1, fun hall => hinv (fun y hy => hall y (List.mem_cons_of_mem _ hy))⟩
      · rw [if_neg hg] at h
        simp only [Prod.mk.injEq, List.cons.injEq] at h
        obtain ⟨-, he, -⟩ := h
        subst he
        refine ⟨by simpa using hg, fun hall => ?_⟩
        by_contra hs
        have hs' : x.streaming = true := by
          cases hst : x.streaming
          · exact absurd hst hs
          · rfl
        have := hall x (List.mem_cons_self x _) hs'
        simp [hs', this] at hg
  · intro cell es e b hall he1 he2 he3
    induction es generalizing cell with
    | nil => simp [loopRun, he1, he2, he3, iterCell]
    | cons x xs ih =>
      obtain ⟨hx1, hx2, hx3⟩ := hall x (List.mem_cons_self x _)
      rw [List.cons_append, loopRun, if_pos (by simp [hx1, hx2]), hx3]
      exact ih _ (fun y hy => hall y (List.mem_cons_of_mem _ hy))

/-- Witness instantiating `c3_failures_never_terminate_loop` (second
conjunct) at three consecutive capture failures followed by a successful
capture and encode: the loop runs all four iterations and publishes. -/
theorem c3_failures_never_terminate_loop_witness :
    loopRun none
      ([⟨true, true, IterOutcome.throws⟩, ⟨true, true, IterOutcome.throws⟩,
        ⟨true, true, IterOutcome.throws⟩] ++
        [⟨true, true, IterOutcome.encoded [1, 2]⟩]) = (some [1, 2], []) :=
  c3_failures_never_terminate_loop.2 none _ _ [1, 2] (by decide) rfl rfl rfl

/-- C4: an iteration whose JPEG encode fails leaves the shared frame cell
exactly as it was (line 83's `if success` guard skips the publish) and the
loop simply proceeds to the remaining iterations without raising. -/
theorem c4_encode_failure_keeps_cell (cell : Option (List Nat))
    (e : IterEnv) (rest : List IterEnv)
    (h1 : e.streaming = true) (h2 : e.cameraPresent = true)
    (h3 : e.outcome = IterOutcome.encodeFailed) :
    loopRun cell (e :: rest) = loopRun cell rest := by
  rw [loopRun, if_pos (by simp [h1, h2]), h3]
  rfl

/-- Witness instantiating `c4_encode_failure_keeps_cell`: with a frame
already in the cell, an encode-failure iteration followed by no further
iterations leaves the previous frame in place. -/
theorem c4_encode_failure_keeps_cell_witness :
    loopRun (some [9]) [⟨true, true, IterOutcome.encodeFailed⟩] =
      (some [9], []) := by
  rw [c4_encode_failure_keeps_cell (some [9]) _ [] rfl rfl rfl]
  rfl

/-- C9: the line 51 guard `while streaming and camera is not None` also
checks the camera handle. First conjunct: every iteration whose body runs
(and hence calls `camera.capture_array()`) observed a non-None camera.
Second conjunct: if the camera handle is absent the loop exits immediately,
even when the `streaming` flag is still set. -/
theorem c9_guard_requires_camera :
    (∀ (es : List IterEnv) (e : IterEnv), e ∈ loopTrace es →
      e.cameraPresent = true) ∧
    (∀ (cell : Option (List Nat)) (e : IterEnv) (rest : List IterEnv),
      e.cameraPresent = false →
      loopRun cell (e :: rest) = (cell, e :: rest)) := by
  constructor
  · intro es
    induction es with
    | nil => intro e h; exact absurd h (by simp [loopTrace])
    | cons x xs ih =>
      intro e h
      rw [loopTrace] at h
      by_cases hg : (x.streaming && x.cameraPresent) = true
      · rw [if_pos hg] at h
        rcases List.mem_cons.mp h with rfl | h'
        · exact (Bool.and_eq_true ..).mp hg |>.2
        · exact ih e h'
      · rw [if_neg hg] at h
        exact absurd h (List.not_mem_nil e)
  · intro cell e rest h
    rw [loopRun, if_neg (by simp [h])]

/-- Witness instantiating `c9_guard_requires_camera` (second conjunct): with
`streaming` still true but the camera handle gone, the loop exits at once. -/
theorem c9_guard_requires_camera_witness :
    loopRun (some [5]) [⟨true, false, IterOutcome.throws⟩] =
      (some [5], [⟨true, false, IterOutcome.throws⟩]) :=
  c9_guard_requires_camera.2 (some [5]) ⟨true, false, IterOutcome.throws⟩ [] rfl

/-- Black-box model of a `Picamera2` handle. The two flags record whether
the handle's `stop()` / `close()` methods would raise when called during
release; `stop_camera` swallows both (lines 207-214), so these flags never
influence the resulting state. -/
structure CamHandle where
  stopRaises : Bool
  closeRaises : Bool
deriving DecidableEq, Repr

/-- The module-level mutable globals of `camera_stream.py` (lines 37-40):
the `streaming` flag, the camera handle (or `None`), and the shared frame
cell `current_frame` (or `None`). -/
structure SysState where
  streaming : Bool
  camera : Option CamHandle
  currentFrame : Option (List Nat)
deriving DecidableEq, Repr

/-- The `stop_camera` function (lines 199-218) as a state transformer: it
sets `streaming = False`, waits the 200ms grace period, releases the camera
handle if present with both release exceptions swallowed (`try`/`except` on
lines 207-214, so the function is total regardless of the handle's
`stopRaises`/`closeRaises` flags), sets `camera = None`, and clears
`current_frame`. -/
def stop_camera (_s : SysState) : SysState :=
  { streaming := false, camera := none, currentFrame := none }

/-- Which step of `start_camera`'s `try` block (lines 174-191) raises, if
any: constructing `Picamera2()`, `camera.configure(config)`, or
`camera.start()`; or none of them (`ok`). -/
inductive StartEnv where
  | acquireFails
  | configureFails
  | startFails
  | ok
deriving DecidableEq, Repr

/-- The `start_camera` function (lines 168-196) as a state transformer. On
success it stores the handle, sets `streaming = True` and spawns the
capture thread, returning `True`. If any acquisition or configuration step
raises, the `except` handler (lines 193-196) calls `stop_camera()` to undo
the partial setup (the handle is already assigned when `configure`/`start`
raise) and returns `False`. -/
def start_camera (env : StartEnv) (h : CamHandle) (s : SysState) :
    Bool × SysState :=
  match env with
  | StartEnv.acquireFails => (false, stop_camera s)
  | StartEnv.configureFails => (false, stop_camera { s with camera := some h })
  | StartEnv.startFails => (false, stop_camera { s with camera := some h })
  | StartEnv.ok => (true, { s with streaming := true, camera := some h })

/-- The startup fragment of `main` (lines 241-243): call
`start_camera(width, height)` and, if it returns `False`, exit the process
with status 1. Returns the exit status requested (`none` when startup
succeeds and the server goes on to run) and the resulting state. -/
def mainStartup (env : StartEnv) (h : CamHandle) (s : SysState) :
    Option Nat × SysState :=
  let r := start_camera env h s
  if r.1 then (none, r.2) else (some 1, r.2)

/-- An atomic transition of the system: one capture-loop iteration (whose
line 51 guard reads the current globals and whose body outcome is supplied
by the environment), a `stop_camera()` call, or a `start_camera()` call.
Loop iterations are atomic with respect to the lifecycle calls, matching
the 200ms grace period of `stop_camera` (line 204) that lets an in-flight
iteration finish before the camera is released and the cell cleared. -/
inductive Act where
  | loopIter (o : IterOutcome)
  | stopCam
  | startCam (env : StartEnv) (h : CamHandle)
deriving DecidableEq, Repr

/-- One atomic step of the system on the shared globals. A `loopIter` step
with a false guard is the loop observing the guard and exiting (no state
change). -/
def stepSys : Act → SysState → SysState
  | Act.loopIter o, s =>
    if s.streaming && s.camera.isSome then
      { s with currentFrame := iterCell s.currentFrame o }
    else s
  | Act.stopCam, s => stop_camera s
  | Act.startCam env h, s => (start_camera env h s).2

/-- C5: while `streaming == false` the capture loop publishes nothing — a
loop-iteration step from any state with the flag cleared is a no-op — and a
completed `stop_camera()` leaves `streaming` false and the shared frame
cell empty. -/
theorem c5_not_streaming_no_publish :
    (∀ (s : SysState) (o : IterOutcome), s.streaming = false →
      stepSys (Act.loopIter o) s = s) ∧
    (∀ s : SysState, (stepSys Act.stopCam s).streaming = false ∧
      (stepSys Act.stopCam s).currentFrame = none) := by
  constructor
  · intro s o h
    rw [stepSys, if_neg (by simp [h])]
  · intro s
    exact ⟨rfl, rfl⟩

/-- Witness instantiating `c5_not_streaming_no_publish` at a concrete
stopped-but-camera-still-present state: the iteration publishes nothing. -/
theorem c5_not_streaming_no_publish_witness :
    stepSys (Act.loopIter (IterOutcome.encoded [3]))
        ⟨false, some ⟨false, false⟩, none⟩ =
      ⟨false, some ⟨false, false⟩, none⟩ ∧
    (stepSys Act.stopCam ⟨true, some ⟨false, false⟩, some [7]⟩).currentFrame
      = none :=
  ⟨c5_not_streaming_no_publish.1 ⟨false, some ⟨false, false⟩, none⟩
      (IterOutcome.encoded [3]) rfl,
    (c5_not_streaming_no_publish.2 ⟨true, some ⟨false, false⟩, some [7]⟩).2⟩

/-- C6: `stop_camera` is idempotent — two consecutive calls from any state
end in the same state as one call — and on an already-stopped state it is a
no-op that (being a total function, all release exceptions swallowed) does
not raise; the end state has `streaming` false, the camera released to
`None`, and the frame cell empty. -/
theorem c6_stop_idempotent (s : SysState) :
    stop_camera (stop_camera s) = stop_camera s ∧
    stop_camera { streaming := false, camera := none, currentFrame := none }
      = { streaming := false, camera := none, currentFrame := none } ∧
    (stop_camera s).streaming = false ∧
    (stop_camera s).camera = none ∧
    (stop_camera s).currentFrame = none :=
  ⟨rfl, rfl, rfl, rfl, rfl⟩

/-- C7: whenever acquisition or configuration raises, `start_camera`
returns `False` with the state restored by `stop_camera` (partial setup
undone: flag cleared, handle released, cell cleared), and `main` then
requests process exit with status 1, which is non-zero. -/
theorem c7_start_failure_stops_and_exits (env : StartEnv) (h : CamHandle)
    (s : SysState) (hf : env ≠ StartEnv.ok) :
    start_camera env h s = (false, stop_camera s) ∧
    (mainStartup env h s).1 = some 1 ∧ (1 : Nat) ≠ 0 := by
  refine ⟨?_, ?_, one_ne_zero⟩
  · cases env with
    | ok => exact absurd rfl hf
    | acquireFails => rfl
    | configureFails => rfl
    | startFails => rfl
  · cases env with
    | ok => exact absurd rfl hf
    | acquireFails => rfl
    | configureFails => rfl
    | startFails => rfl

/-- Witness instantiating `c7_start_failure_stops_and_exits` at a concrete
state in which `camera.configure` raises mid-startup. -/
theorem c7_start_failure_stops_and_exits_witness :
    start_camera StartEnv.configureFails ⟨false, false⟩
        ⟨false, none, some [4]⟩ =
      (false, ⟨false, none, none⟩) ∧
    (mainStartup StartEnv.configureFails ⟨false, false⟩
        ⟨false, none, some [4]⟩).1 = some 1 :=
  ⟨(c7_start_failure_stops_and_exits StartEnv.configureFails ⟨false, false⟩
      ⟨false, none, some [4]⟩ (by decide)).1,
    (c7_start_failure_stops_and_exits StartEnv.configureFails ⟨false, false⟩
      ⟨false, none, some [4]⟩ (by decide)).2.1⟩

/-- Byte sequence of an ASCII/Unicode string, for the literal byte strings
appearing in the source. -/
def strBytes (t : String) : List Nat :=
  t.toList.map Char.toNat

/-- An HTTP response as produced by the Flask handlers: a status code, a
mimetype, and a body. Flask's default status for a plain return value is
200 and its default mimetype for a string body is `text/html`. -/
structure HttpResp where
  status : Nat
  mimetype : String
  body : List Nat
deriving DecidableEq, Repr

/-- The `/snapshot` handler (lines 125-139): if `streaming` is false or
`current_frame` is `None`, return "Camera not started" with status 503;
otherwise read the cell under the lock, guard once more against `None`
(status 503), and return the JPEG bytes with mimetype `image/jpeg`. -/
def snapshot (s : SysState) : HttpResp :=
  if !s.streaming || s.currentFrame.isNone then
    ⟨503, "text/html", strBytes "Camera not started"⟩
  else
    match s.currentFrame with
    | none => ⟨503, "text/html", strBytes "No frame available"⟩
    | some b => ⟨200, "image/jpeg", b⟩

/-- C8: a `/snapshot` request answered while `streaming` is false or the
shared frame cell is empty gets status 503; otherwise it gets status 200
with mimetype `image/jpeg` and exactly the cell's current JPEG bytes as
body. -/
theorem c8_snapshot_status (s : SysState) :
    ((s.streaming = false ∨ s.currentFrame = none) →
      (snapshot s).status = 503) ∧
    (∀ b : List Nat, s.streaming = true → s.currentFrame = some b →
      snapshot s = ⟨200, "image/jpeg", b⟩) := by
  constructor
  · intro h
    rcases h with h | h
    · rw [snapshot, if_pos (by simp [h])]
    · rw [snapshot, if_pos (by simp [h])]
  · intro b h1 h2
    rw [snapshot, if_neg (by simp [h1, h2])]
    simp [h2]

/-- Witness instantiating `c8_snapshot_status` twice: before any frame has
been published the response is 503, and with a published frame it is a 200
`image/jpeg` response carrying the cell's bytes. -/
theorem c8_snapshot_status_witness :
    (snapshot ⟨true, some ⟨false, false⟩, none⟩).status = 503 ∧
    snapshot ⟨true, some ⟨false, false⟩, some [255, 216]⟩ =
      ⟨200, "image/jpeg", [255, 216]⟩ :=
  ⟨(c8_snapshot_status ⟨true, some ⟨false, false⟩, none⟩).1 (Or.inr rfl),
    (c8_snapshot_status ⟨true, some ⟨false, false⟩, some [255, 216]⟩).2
      [255, 216] rfl rfl⟩

/-- The multipart segment yielded by `generate_frames` for one frame
(lines 107-108): boundary and part header, the JPEG bytes, and the trailing
delimiter. -/
def mjpegSegment (frame : List Nat) : List Nat :=
  strBytes "--frame\r\nContent-Type: image/jpeg\r\n\r\n" ++ frame ++
    strBytes "\r\n"

/-- What one pass of the `generate_frames` body does: end the generator
(guard `while streaming` false), yield one multipart segment, or sleep
50ms. -/
inductive GenAct where
  | ended
  | yielded (seg : List Nat)
  | slept
deriving DecidableEq, Repr

/-- One pass of `generate_frames` (lines 102-110): while `streaming`, read
the cell under the lock; if a frame is present, yield it as a multipart
segment, otherwise sleep 50ms. -/
def genStep (streaming : Bool) (cell : Option (List Nat)) : GenAct :=
  if streaming then
    match cell with
    | some b => GenAct.yielded (mjpegSegment b)
    | none => GenAct.slept
  else
    GenAct.ended

/-- `n` consecutive passes of `generate_frames` during which the globals
`streaming` and `current_frame` do not change (no publish occurs in
between). -/
def genRun (streaming : Bool) (cell : Option (List Nat)) : Nat → List GenAct
  | 0 => []
  | n + 1 => genStep streaming cell :: genRun streaming cell n

/-- C10: the stream generator sleeps exactly when it is live and the cell
is empty; whenever a frame is present it yields its multipart segment
immediately, with no sleep between yields — so `n` passes between two
publishes produce `n` identical duplicate segments of the same frame
bytes. -/
theorem c10_generator_sleeps_only_when_empty :
    (∀ (st : Bool) (cell : Option (List Nat)),
      genStep st cell = GenAct.slept ↔ (st = true ∧ cell = none)) ∧
    (∀ (b : List Nat), genStep true (some b) =
      GenAct.yielded (mjpegSegment b)) ∧
    (∀ (b : List Nat) (n : Nat), genRun true (some b) n =
      List.replicate n (GenAct.yielded (mjpegSegment b))) := by
  refine ⟨?_, fun b => rfl, ?_⟩
  · intro st cell
    cases st <;> cases cell <;> simp [genStep]
  · intro b n
    induction n with
    | zero => rfl
    | succ n ih => rw [genRun, ih, List.replicate_succ]; rfl

/-- Witness instantiating `c10_generator_sleeps_only_when_empty` at a
concrete cell value: with an empty cell the generator sleeps, and three
passes over one unchanged frame yield three identical segments. -/
theorem c10_generator_sleeps_only_when_empty_witness :
    genStep true none = GenAct.slept ∧
    genRun true (some [1]) 3 =
      List.replicate 3 (GenAct.yielded (mjpegSegment [1])) :=
  ⟨(c10_generator_sleeps_only_when_empty.1 true none).mpr ⟨rfl, rfl⟩,
    c10_generator_sleeps_only_when_empty.2.2 [1] 3⟩

end CameraStream
